import Mathlib

/-!
Verification development for talents/download_actors.py.

The script downloads portrait images for a hardcoded list of actor names,
normalizes them to PNG, stores them in a flat directory keyed by a slug
derived from the name, and emits a text file of CDN links for the
successfully stored images.

The embedding below models the observable behavior of each function.
Effects (network fetches, backoff sleeps, file writes) are made explicit
in a result record; the network and the filesystem save operation are
abstracted as oracles, and the set of files on disk as a list of paths.
-/

namespace DownloadActors

/-- Lowercasing of one character in the ASCII range, as str.lower acts on
ASCII input (the only characters occurring in the hardcoded actor names):
codepoints 65..90 are shifted up by 32, everything else is unchanged. -/
def lowerChar (c : Char) : Char :=
  if 65 ≤ c.toNat ∧ c.toNat ≤ 90 then Char.ofNat (c.toNat + 32) else c

/-- Model of name.lower: lowercase every character. -/
def pyLower (s : String) : String :=
  ⟨s.data.map lowerChar⟩

/-- One character of the replace step: a space becomes a hyphen. -/
def pyReplChar (c : Char) : Char :=
  if c = ' ' then '-' else c

/-- Model of .replace applied with the one-character needle a space and
the one-character replacement a hyphen, which acts characterwise. -/
def replaceSpaceHyphen (s : String) : String :=
  ⟨s.data.map pyReplChar⟩

/-- clean_name_for_file (lines 8-10): lowercase the name, then replace
spaces with hyphens. -/
def clean_name_for_file (name : String) : String :=
  replaceSpaceHyphen (pyLower name)

/-- create_cdn_link (lines 12-15): fixed base URL plus slug plus ".png". -/
def create_cdn_link (actor_name : String) : String :=
  "https://cdn.jsdelivr.net/gh/talentZ-A/talent-z-assets/talents/actors_images/"
    ++ clean_name_for_file actor_name ++ ".png"

/-- PIL color modes (the standard set; mode "1" is named one here). -/
inductive PILMode where
  | one | L | La | LA | P | PA | RGB | RGBa | RGBA | RGBX
  | CMYK | YCbCr | HSV | I | F
deriving DecidableEq, Repr

/-- Whether a PIL mode carries an alpha channel: LA, PA, RGBA, and the
premultiplied variants La and RGBa. -/
def PILMode.hasAlpha : PILMode → Bool
  | .La | .LA | .PA | .RGBa | .RGBA => true
  | _ => false

/-- A decoded image, abstracted to its color mode; the pixel payload is
irrelevant to every property considered here. -/
structure Image where
  mode : PILMode
deriving DecidableEq, Repr

/-- The placeholder URL table of download_image (lines 56-60). -/
def placeholder_urls : List String :=
  ["https://picsum.photos/800/1200",
   "https://source.unsplash.com/random/800x1200/?portrait",
   "https://baconmockup.com/800/1200"]

/-- The URL download_image actually requests (line 62): the placeholder
table indexed at attempt - 1. The actor name is an argument of
download_image but does not flow into the URL. Callers pass attempts
1, 2, 3, for which the lookup is always defined; an out-of-range index
would raise inside the try block and be caught (modelled as none). -/
def img_url (actor_name : String) (attempt : Nat) : Option String :=
  placeholder_urls.get? (attempt - 1)

/-- Normalization of a decoded image (lines 76-81): an image whose mode
is RGBA is returned as-is; any other mode is converted to RGB. -/
def normalize (img : Image) : Image :=
  if img.mode = PILMode.RGBA then img else { mode := PILMode.RGB }

/-- download_image (lines 17-89). The oracle http maps the attempt number
to the image decoded from the HTTP response, or none when the request,
the status check, or the decode raises; the surrounding try/except turns
any such exception into a None return. On success the normalization of
lines 76-81 is applied. -/
def download_image (http : Nat → Option Image) (actor_name : String)
    (attempt : Nat) : Option Image :=
  match img_url actor_name attempt with
  | none => none
  | some _u =>
      match http attempt with
      | none => none
      | some img => some (normalize img)

/-- Observable outcome of one process_actor call: the returned boolean,
the number of fetch calls issued, the number of backoff sleeps, and the
list of file paths written, in order. -/
structure RunResult where
  success : Bool
  fetches : Nat
  sleeps : Nat
  writes : List String
deriving DecidableEq, Repr

/-- Account for one consumed attempt: one fetch call, plus the backoff
sleep when the attempt is not the last one. -/
def addAttemptCost (sleep : Nat) (r : RunResult) : RunResult :=
  { r with fetches := r.fetches + 1, sleeps := r.sleeps + sleep }

/-- The retry loop of process_actor (lines 102-119) over the list of
remaining attempt numbers; the source iterates attempts 1, 2, 3, and for
each of those exactly one fetch call is issued. The oracle save tells
whether makedirs plus img.save succeed at a given attempt; false models
an exception, which is caught (lines 113-114) and falls through to the
backoff check, exactly like a failed fetch. -/
def attempt_loop (http : Nat → Option Image) (save : Nat → Bool)
    (actor_name output_path : String) : List Nat → RunResult
  | [] => { success := false, fetches := 0, sleeps := 0, writes := [] }
  | attempt :: rest =>
      match download_image http actor_name attempt with
      | some _img =>
          if save attempt then
            { success := true, fetches := 1, sleeps := 0,
              writes := [output_path] }
          else
            addAttemptCost (if attempt < 3 then 1 else 0)
              (attempt_loop http save actor_name output_path rest)
      | none =>
          addAttemptCost (if attempt < 3 then 1 else 0)
            (attempt_loop http save actor_name output_path rest)

/-- The output path of an actor: os.path.join of the directory with the
slug plus ".png". -/
def output_path_for (output_dir actor_name : String) : String :=
  output_dir ++ "/" ++ clean_name_for_file actor_name ++ ".png"

/-- process_actor (lines 91-122). The list store holds the paths of the
files existing on disk (os.path.exists is membership). If the output
path already exists the call returns True at once with no fetch, no
sleep and no write; otherwise the three-attempt retry loop runs. -/
def process_actor (store : List String) (http : Nat → Option Image)
    (save : Nat → Bool) (actor_name output_dir : String) : RunResult :=
  let output_path := output_path_for output_dir actor_name
  if output_path ∈ store then
    { success := true, fetches := 0, sleeps := 0, writes := [] }
  else
    attempt_loop http save actor_name output_path [1, 2, 3]

/-- The hardcoded actor list of main (lines 125-133). -/
def actors : List String :=
  ["Johnny Depp", "Jennifer Lawrence", "Bradley Cooper", "Charlize Theron",
   "Ryan Reynolds", "Anne Hathaway", "Benedict Cumberbatch", "Emma Stone",
   "Matt Damon", "Chris Pratt", "Cate Blanchett", "Julia Roberts",
   "Jake Gyllenhaal", "Gal Gadot", "Dwayne Johnson", "Zac Efron",
   "Ryan Gosling", "Rooney Mara", "Keira Knightley", "John Cena",
   "Susan Sarandon", "Michael B. Jordan", "Salma Hayek", "Zoe Saldana",
   "Sandra Oh", "Channing Tatum", "John Boyega", "Tracee Ellis Ross"]

/-- The output directory of main (line 137). -/
def output_dir : String := "actors_images"

/-- Accumulator of the per-actor loop of main: the successful_actors list
and the set of files on disk. -/
structure BatchState where
  successful_actors : List String
  store : List String
deriving DecidableEq, Repr

/-- One iteration of the per-actor loop of main (lines 156-164): run
process_actor against the current disk state, append the actor to
successful_actors when it returns True, and add any written file to the
disk state. -/
def batch_step (http : String → Nat → Option Image)
    (save : String → Nat → Bool) (st : BatchState) (actor : String) :
    BatchState :=
  let r := process_actor st.store (http actor) (save actor) actor output_dir
  { successful_actors :=
      if r.success then st.successful_actors ++ [actor]
      else st.successful_actors,
    store := st.store ++ r.writes }

/-- The link-file loop of main (lines 166-173): iterate over ALL actors
in input order, build the CDN link for each, and write the line only
when the actor is in successful_actors. Returns the lines of
actor_image_links.txt in order. -/
def write_links (actorList successList : List String) : List String :=
  match actorList with
  | [] => []
  | a :: rest =>
      let cdn_link := create_cdn_link a
      (if a ∈ successList then [cdn_link] else []) ++
        write_links rest successList

/-- main (lines 124-177), parameterized by the initial disk state and the
fetch and save oracles; the actor list is a parameter so that batch
properties can be stated for any input list (the script runs it on
actors). First pass (lines 144-149): actors whose file already exists,
in input order. Second pass (lines 152-164): every actor not marked in
the first pass is processed in order. Finally the link file lines are
produced (lines 166-173). Returns the final state with the link lines. -/
def run_main (actorList : List String) (store0 : List String)
    (http : String → Nat → Option Image) (save : String → Nat → Bool) :
    BatchState × List String :=
  let pre := actorList.filter
    (fun a => decide (output_path_for output_dir a ∈ store0))
  let remaining := actorList.filter (fun a => decide (a ∉ pre))
  let final := remaining.foldl (batch_step http save)
    { successful_actors := pre, store := store0 }
  (final, write_links actorList final.successful_actors)

end DownloadActors

namespace DownloadActors

theorem toNat_ofNat_of_valid (n : Nat) (h : n.isValidChar) :
    (Char.ofNat n).toNat = n := by
  unfold Char.ofNat
  rw [dif_pos h]
  rfl

theorem lowerChar_not_upper (c : Char) :
    ¬(65 ≤ (lowerChar c).toNat ∧ (lowerChar c).toNat ≤ 90) := by
  unfold lowerChar
  split
  · next h =>
      rw [toNat_ofNat_of_valid (c.toNat + 32) (Or.inl (by omega))]
      omega
  · next h => exact h

theorem lowerChar_eq_self (c : Char)
    (h : ¬(65 ≤ c.toNat ∧ c.toNat ≤ 90)) : lowerChar c = c := by
  unfold lowerChar
  rw [if_neg h]

theorem lowerChar_idem (c : Char) : lowerChar (lowerChar c) = lowerChar c :=
  lowerChar_eq_self _ (lowerChar_not_upper c)

theorem clean_char_idem (c : Char) :
    pyReplChar (lowerChar (pyReplChar (lowerChar c))) =
      pyReplChar (lowerChar c) := by
  by_cases h : lowerChar c = ' '
  · rw [h]
    decide
  · have h1 : pyReplChar (lowerChar c) = lowerChar c := by
      unfold pyReplChar
      rw [if_neg h]
    rw [h1, lowerChar_idem, h1]

theorem clean_data (s : String) :
    (clean_name_for_file s).data =
      s.data.map (fun c => pyReplChar (lowerChar c)) := by
  unfold clean_name_for_file replaceSpaceHyphen pyLower
  simp [List.map_map, Function.comp]

end DownloadActors

namespace DownloadActors

/-- C4: slug derivation is a pure deterministic function mapping
"Robert Downey Jr." to "robert-downey-jr.", and it is idempotent on
every string. -/
theorem C4_clean_name_concrete_and_idempotent :
    clean_name_for_file "Robert Downey Jr." = "robert-downey-jr." ∧
    ∀ s : String, clean_name_for_file (clean_name_for_file s) =
      clean_name_for_file s := by
  constructor
  · decide
  · intro s
    apply String.ext
    rw [clean_data, clean_data]
    generalize s.data = l
    induction l with
    | nil => rfl
    | cons c cs ih => simp [ih, clean_char_idem c]

/-- C1: when the output PNG already exists in the store, process_actor
returns True at once, with zero fetches, zero sleeps and no write. -/
theorem C1_existing_file_skips_without_fetch
    (store : List String) (http : Nat → Option Image) (save : Nat → Bool)
    (actor_name output_dir : String)
    (h : output_path_for output_dir actor_name ∈ store) :
    process_actor store http save actor_name output_dir =
      { success := true, fetches := 0, sleeps := 0, writes := [] } := by
  unfold process_actor
  rw [if_pos h]

theorem C1_witness :
    process_actor ["actors_images/johnny-depp.png"] (fun _ => none)
        (fun _ => false) "Johnny Depp" "actors_images" =
      { success := true, fetches := 0, sleeps := 0, writes := [] } :=
  C1_existing_file_skips_without_fetch _ _ _ _ _ (by decide)

/-- C2: when the file is absent and the source fails on every attempt,
process_actor issues exactly 3 fetch calls, sleeps exactly 2 times,
returns False, and writes no file. -/
theorem C2_always_failing_source
    (store : List String) (http : Nat → Option Image) (save : Nat → Bool)
    (actor_name output_dir : String)
    (hmiss : output_path_for output_dir actor_name ∉ store)
    (hfail : ∀ attempt, http attempt = none) :
    process_actor store http save actor_name output_dir =
      { success := false, fetches := 3, sleeps := 2, writes := [] } := by
  unfold process_actor
  rw [if_neg hmiss]
  simp [attempt_loop, download_image, img_url, placeholder_urls, hfail,
    addAttemptCost]

theorem C2_witness :
    process_actor [] (fun _ => none) (fun _ => true) "Emma Stone"
        "actors_images" =
      { success := false, fetches := 3, sleeps := 2, writes := [] } :=
  C2_always_failing_source _ _ _ _ _ (by decide) (fun _ => rfl)

/-- C3: when the file is absent, the source fails on attempts below k and
succeeds at attempt k with k at most 3, and saving succeeds, then
process_actor issues exactly k fetch calls, returns True, and writes
exactly one file. -/
theorem C3_success_at_attempt_k
    (store : List String) (http : Nat → Option Image) (save : Nat → Bool)
    (actor_name output_dir : String) (k : Nat) (img : Image)
    (hmiss : output_path_for output_dir actor_name ∉ store)
    (hk1 : 1 ≤ k) (hk3 : k ≤ 3)
    (hbefore : ∀ i, 1 ≤ i → i < k → http i = none)
    (hsucc : http k = some img) (hsave : save k = true) :
    process_actor store http save actor_name output_dir =
      { success := true, fetches := k, sleeps := k - 1,
        writes := [output_path_for output_dir actor_name] } := by
  unfold process_actor
  rw [if_neg hmiss]
  interval_cases k
  · simp [attempt_loop, download_image, img_url, placeholder_urls, hsucc,
      hsave, addAttemptCost]
  · have h1 := hbefore 1 (by omega) (by omega)
    simp [attempt_loop, download_image, img_url, placeholder_urls, h1,
      hsucc, hsave, addAttemptCost]
  · have h1 := hbefore 1 (by omega) (by omega)
    have h2 := hbefore 2 (by omega) (by omega)
    simp [attempt_loop, download_image, img_url, placeholder_urls, h1, h2,
      hsucc, hsave, addAttemptCost]

theorem C3_witness :
    process_actor [] (fun i => if i = 2 then some { mode := PILMode.L }
        else none) (fun _ => true) "Johnny Depp" "actors_images" =
      { success := true, fetches := 2, sleeps := 1,
        writes := [output_path_for "actors_images" "Johnny Depp"] } :=
  C3_success_at_attempt_k _ _ _ _ _ 2 { mode := PILMode.L } (by decide)
    (by decide) (by decide)
    (fun i hi1 hi2 => by
      have : i = 1 := by omega
      rw [this]
      decide)
    rfl rfl

/-- C10: the URL requested by download_image, and hence its whole result,
depends only on the attempt number and never on the actor name. -/
theorem C10_fetched_url_independent_of_actor :
    ∀ (a b : String) (attempt : Nat) (http : Nat → Option Image),
      img_url a attempt = img_url b attempt ∧
      download_image http a attempt = download_image http b attempt :=
  fun _ _ _ _ => ⟨rfl, rfl⟩

end DownloadActors

namespace DownloadActors

/-- C5 counterexample: an image in the alpha-carrying mode LA does not
keep its alpha: download_image converts it to the opaque RGB mode. -/
theorem C5_counterexample_la_loses_alpha :
    PILMode.hasAlpha PILMode.LA = true ∧
    download_image (fun _ => some { mode := PILMode.LA }) "Johnny Depp" 1 =
      some { mode := PILMode.RGB } ∧
    PILMode.hasAlpha PILMode.RGB = false := by decide

/-- C5 (amended): normalization in download_image preserves the image
as-is exactly when its mode is RGBA; every other mode, the alpha-carrying
LA and PA included, is converted to RGB, so only RGBA sources keep their
alpha channel. -/
theorem C5_amended_only_rgba_preserved :
    ∀ m : PILMode,
      normalize { mode := m } =
        (if m = PILMode.RGBA then { mode := m }
         else { mode := PILMode.RGB }) ∧
      PILMode.hasAlpha (normalize { mode := m }).mode =
        decide (m = PILMode.RGBA) := by
  intro m
  cases m <;> decide

theorem attempt_loop_bounds (http : Nat → Option Image) (save : Nat → Bool)
    (actor_name output_path : String) (l : List Nat) :
    (attempt_loop http save actor_name output_path l).fetches ≤ l.length ∧
    (attempt_loop http save actor_name output_path l).writes.length ≤ 1 := by
  induction l with
  | nil => simp [attempt_loop]
  | cons a rest ih =>
      rcases hd : download_image http actor_name a with _ | img
      · simp only [attempt_loop, hd, addAttemptCost, List.length_cons]
        exact ⟨by omega, by simpa using ih.2⟩
      · by_cases hs : save a
        · simp [attempt_loop, hd, hs]
        · simp only [attempt_loop, hd, hs, Bool.false_eq_true, if_false,
            addAttemptCost, List.length_cons]
          exact ⟨by omega, by simpa using ih.2⟩

/-- C7: one process_actor invocation issues at most 3 fetch calls and
writes at most one file. -/
theorem C7_at_most_three_fetches_one_write
    (store : List String) (http : Nat → Option Image) (save : Nat → Bool)
    (actor_name output_dir : String) :
    (process_actor store http save actor_name output_dir).fetches ≤ 3 ∧
    (process_actor store http save actor_name output_dir).writes.length
      ≤ 1 := by
  simp only [process_actor]
  split
  · simp
  · simpa using attempt_loop_bounds http save actor_name
      (output_path_for output_dir actor_name) [1, 2, 3]

theorem write_links_eq_filter_map (l succ : List String) :
    write_links l succ =
      (l.filter (fun a => decide (a ∈ succ))).map create_cdn_link := by
  induction l with
  | nil => rfl
  | cons a rest ih =>
      by_cases h : a ∈ succ <;> simp [write_links, h, ih]

/-- C6: the link artifact holds exactly the CDN link of each actor whose
outcome is success, in original input order; failed actors contribute no
line. -/
theorem C6_link_lines_are_successes_in_input_order
    (actorList store0 : List String) (http : String → Nat → Option Image)
    (save : String → Nat → Bool) :
    (run_main actorList store0 http save).2 =
      (actorList.filter (fun a =>
          decide (a ∈
            (run_main actorList store0 http save).1.successful_actors))).map
        create_cdn_link := by
  simp only [run_main]
  exact write_links_eq_filter_map _ _

/-- C9: when every actor of the input list already has its PNG in the
store, the produced link artifact is identical for any two fetch and
save oracles: no fetch is consulted. -/
theorem C9_full_store_artifact_oracle_independent
    (actorList store0 : List String)
    (http1 http2 : String → Nat → Option Image)
    (save1 save2 : String → Nat → Bool)
    (hfull : ∀ a ∈ actorList, output_path_for output_dir a ∈ store0) :
    (run_main actorList store0 http1 save1).2 =
      (run_main actorList store0 http2 save2).2 := by
  have hlinks : ∀ (http : String → Nat → Option Image)
      (save : String → Nat → Bool),
      (run_main actorList store0 http save).2 =
        write_links actorList actorList := by
    intro http save
    simp only [run_main]
    have hpre : actorList.filter
        (fun a => decide (output_path_for output_dir a ∈ store0)) =
          actorList :=
      List.filter_eq_self.mpr (fun a ha => by simpa using hfull a ha)
    rw [hpre]
    have hrem : actorList.filter (fun a => decide (a ∉ actorList)) = [] :=
      List.filter_eq_nil_iff.mpr (fun a ha => by simp [ha])
    rw [hrem]
    rfl
  rw [hlinks http1 save1, hlinks http2 save2]

theorem C9_witness :
    (run_main ["Emma Stone"] ["actors_images/emma-stone.png"]
        (fun _ _ => some { mode := PILMode.RGB }) (fun _ _ => true)).2 =
      (run_main ["Emma Stone"] ["actors_images/emma-stone.png"]
        (fun _ _ => none) (fun _ _ => false)).2 :=
  C9_full_store_artifact_oracle_independent _ _ _ _ _ _
    (by
      intro a ha
      simp only [List.mem_singleton] at ha
      rw [ha]
      decide)

end DownloadActors

namespace DownloadActors

theorem process_actor_all_fail (store : List String)
    (http : Nat → Option Image) (save : Nat → Bool)
    (actor_name output_dir : String)
    (hmiss : output_path_for output_dir actor_name ∉ store)
    (hfail : ∀ attempt, http attempt = none) :
    process_actor store http save actor_name output_dir =
      { success := false, fetches := 3, sleeps := 2, writes := [] } := by
  simp only [process_actor]
  rw [if_neg hmiss]
  simp [attempt_loop, download_image, img_url, placeholder_urls, hfail,
    addAttemptCost]

theorem process_actor_first_try (store : List String)
    (http : Nat → Option Image) (save : Nat → Bool)
    (actor_name output_dir : String) (img : Image)
    (hmiss : output_path_for output_dir actor_name ∉ store)
    (hfetch : http 1 = some img) (hsave : save 1 = true) :
    process_actor store http save actor_name output_dir =
      { success := true, fetches := 1, sleeps := 0,
        writes := [output_path_for output_dir actor_name] } := by
  simp only [process_actor]
  rw [if_neg hmiss]
  simp [attempt_loop, download_image, img_url, placeholder_urls, hfetch,
    hsave]

theorem batch_fold_all_fail (http : String → Nat → Option Image)
    (save : String → Nat → Bool) (ys : List String)
    (succ0 store0 : List String)
    (hfail : ∀ a ∈ ys, ∀ i, http a i = none)
    (hmiss : ∀ a ∈ ys, output_path_for output_dir a ∉ store0) :
    ys.foldl (batch_step http save)
        { successful_actors := succ0, store := store0 } =
      { successful_actors := succ0, store := store0 } := by
  induction ys generalizing succ0 with
  | nil => rfl
  | cons a rest ih =>
      rw [List.foldl_cons]
      have h1 : batch_step http save
          { successful_actors := succ0, store := store0 } a =
          { successful_actors := succ0, store := store0 } := by
        simp only [batch_step]
        rw [process_actor_all_fail store0 (http a) (save a) a output_dir
          (hmiss a (by simp)) (fun i => hfail a (by simp) i)]
        simp
      rw [h1]
      exact ih succ0 (fun x hx i => hfail x (List.mem_cons_of_mem a hx) i)
        (fun x hx => hmiss x (List.mem_cons_of_mem a hx))

/-- C8: a persistence failure is caught inside process_actor and consumes
the attempt slot exactly like a fetch failure, the loop falling through
to the remaining attempts with the same one-fetch, one-backoff cost; and
at batch level the total failure of earlier actors never prevents a
later actor from being processed and succeeding. -/
theorem C8_save_failure_falls_through_and_batch_continues :
    (∀ (http : Nat → Option Image) (save : Nat → Bool)
        (actor_name output_path : String) (a : Nat) (rest : List Nat)
        (img : Image),
        download_image http actor_name a = some img → save a = false →
        attempt_loop http save actor_name output_path (a :: rest) =
          addAttemptCost (if a < 3 then 1 else 0)
            (attempt_loop http save actor_name output_path rest)) ∧
    (∀ (xs : List String) (b : String) (store0 : List String)
        (http : String → Nat → Option Image)
        (save : String → Nat → Bool) (img : Image),
        (∀ a ∈ xs, ∀ i, http a i = none) →
        output_path_for output_dir b ∉ store0 →
        http b 1 = some img → save b 1 = true →
        b ∈ (run_main (xs ++ [b]) store0 http save).1.successful_actors) := by
  constructor
  · intro http save actor_name output_path a rest img hd hs
    simp [attempt_loop, hd, hs]
  · intro xs b store0 http save img hxs hbmiss hbfetch hbsave
    simp only [run_main]
    set pre := (xs ++ [b]).filter
      (fun a => decide (output_path_for output_dir a ∈ store0)) with hpre
    have hbpre : b ∉ pre := by
      rw [hpre]
      intro hmem
      exact hbmiss (by simpa using (List.mem_filter.mp hmem).2)
    rw [List.filter_append]
    have hsing : [b].filter (fun a => decide (a ∉ pre)) = [b] := by
      simp [hbpre]
    rw [hsing, List.foldl_append]
    rw [batch_fold_all_fail http save _ pre store0
      (fun a ha i => hxs a (List.mem_of_mem_filter ha) i)
      (fun a ha hm => by
        have hax : a ∈ xs := List.mem_of_mem_filter ha
        have haq : a ∉ pre := by simpa using (List.mem_filter.mp ha).2
        apply haq
        rw [hpre]
        exact List.mem_filter.mpr ⟨by simp [hax], by simpa using hm⟩)]
    simp only [List.foldl_cons, List.foldl_nil, batch_step]
    rw [process_actor_first_try store0 (http b) (save b) b output_dir img
      hbmiss hbfetch hbsave]
    simp

theorem C8_witness :
    attempt_loop (fun _ => some { mode := PILMode.L }) (fun _ => false)
        "Anne Hathaway" "actors_images/anne-hathaway.png" [1, 2, 3] =
      addAttemptCost (if 1 < 3 then 1 else 0)
        (attempt_loop (fun _ => some { mode := PILMode.L }) (fun _ => false)
          "Anne Hathaway" "actors_images/anne-hathaway.png" [2, 3]) ∧
    "Emma Stone" ∈ (run_main (["Anne Hathaway"] ++ ["Emma Stone"]) []
        (fun a _ => if a = "Emma Stone" then some { mode := PILMode.RGB }
          else none)
        (fun _ _ => true)).1.successful_actors :=
  ⟨C8_save_failure_falls_through_and_batch_continues.1
      (fun _ => some { mode := PILMode.L }) (fun _ => false)
      "Anne Hathaway" "actors_images/anne-hathaway.png" 1 [2, 3]
      { mode := PILMode.RGB } (by decide) rfl,
   C8_save_failure_falls_through_and_batch_continues.2
      ["Anne Hathaway"] "Emma Stone" []
      (fun a _ => if a = "Emma Stone" then some { mode := PILMode.RGB }
        else none)
      (fun _ _ => true) { mode := PILMode.RGB }
      (by
        intro a ha i
        simp only [List.mem_singleton] at ha
        rw [ha]
        rfl)
      (by decide) (by decide) rfl⟩

end DownloadActors
